import Mathlib

/-!
Shallow embedding of the bike-tracker firmware core (the `bike_tracker` C++
namespace): the geodesic distance function (`gps_t::distance`), the GPS probe
classifier and trip accumulator (`bike_tracker_t::probe_gps`), the idle window
(`etl::queue<bool, 12>` bookkeeping in `loop_tracking`), the telemetry encoder
(`radio_t::location_msg_t`), the transmission routine
(`bike_tracker_t::send_location_msg`) and the two-state tracker state machine
(`loop_tracking`, `loop_power_save`, `to_tracking`, `to_power_save`).

Modelling conventions:
- C `float` arithmetic inside the state machine is idealised as exact rational
  arithmetic (`ℚ`); the float literal `0.2f` is idealised as `1/5`.
- `gps_t::distance` itself uses transcendental functions, so it is modelled
  over `ℝ` for its algebraic properties; the state machine is parameterised
  over an abstract distance function (`dist_fn`) standing for
  `gps_t::distance`, mirroring the component boundary.
- The RTC clock, GPS samples, radio acknowledgments and movement-detector
  interrupts are environment inputs, one record per `loop()` tick.
- `uint32_t` times are modelled as `ℕ` (the firmware runs with a monotone
  clock seeded at 0; no claim exercises 32-bit wrap-around).
- IEEE float division by zero (`dist / delta_secs` with `delta_secs == 0` in
  `probe_gps`) yields ±inf/NaN in C; over `ℚ` Lean's convention `x / 0 = 0`
  differs, so the exact source condition under which that division executes
  with a zero divisor is captured separately (`tick_divides_by_zero`).
-/

/- Core marks the `Rat` arithmetic irreducible, which blocks `decide` on the
concrete executions below; restore the default reducibility. -/
set_option allowUnsafeReducibility true
attribute [semireducible] Rat.add Rat.sub Rat.mul Rat.div Rat.inv Rat.neg Rat.blt Rat.ofScientific

namespace BikeTracker

/-- `gps_t::coordinates_t`: latitude and longitude in degrees, altitude in
meters above sea level. Parametric in the scalar type (`ℝ` for the geodesic
function, `ℚ` for the state machine). -/
structure coordinates_t (α : Type) where
  lat : α
  lng : α
  alt : α
deriving DecidableEq

/-- `gps_t::date_time_t`: optional date and time parts of a GPS sample. -/
structure date_time_t where
  has_date : Bool
  year : ℤ
  month : ℕ
  day : ℕ
  has_time : Bool
  hour : ℕ
  minute : ℕ
  second : ℕ
deriving DecidableEq

/-- `gps_t::position_t`: one GPS probe sample. -/
structure position_t where
  has_gnss_fix : Bool
  n_satellites : ℕ
  coordinates : coordinates_t ℚ
  date_time : date_time_t
deriving DecidableEq

/-- Degrees to radians, as in the lambda inside `gps_t::distance`. -/
noncomputable def to_radians (value : ℝ) : ℝ :=
  value * Real.pi / 180

/-- The C library `atan2(y, x)` (quadrant-aware arctangent), used by
`gps_t::distance`. -/
noncomputable def atan2 (y x : ℝ) : ℝ :=
  if 0 < x then Real.arctan (y / x)
  else if x < 0 then
    (if 0 ≤ y then Real.arctan (y / x) + Real.pi else Real.arctan (y / x) - Real.pi)
  else if 0 < y then Real.pi / 2
  else if y < 0 then -(Real.pi / 2)
  else 0

/-- `gps_t::distance` (src/unnamed/part_000 lines 146-176, the revision with
the `ignore_alt` flag; src/gps.hpp is an earlier revision of the same function
without the flag): haversine great-circle distance on a spherical Earth of
radius 6371 km, with the absolute altitude difference composed Euclidean-style
unless `ignore_alt` is set. -/
noncomputable def gps_t.distance (coord_a coord_b : coordinates_t ℝ)
    (ignore_alt : Bool) : ℝ :=
  let earth_raduis : ℝ := 6371 * 1000
  let lat_a := to_radians coord_a.lat
  let lat_b := to_radians coord_b.lat
  let delta_lat := to_radians (coord_a.lat - coord_b.lat)
  let delta_lng := to_radians (coord_a.lng - coord_b.lng)
  let a := Real.sin (delta_lat / 2) ^ 2
         + Real.cos lat_a * Real.cos lat_b * Real.sin (delta_lng / 2) ^ 2
  let c := 2 * atan2 (Real.sqrt a) (Real.sqrt (1 - a))
  let horiz_dist := c * earth_raduis
  if ignore_alt then horiz_dist
  else Real.sqrt (horiz_dist ^ 2 + |coord_a.alt - coord_b.alt| ^ 2)

/-- Abstract type of the distance function the state machine calls
(`gps_t::distance` with its `ignore_alt` flag). -/
def dist_fn : Type :=
  coordinates_t ℚ → coordinates_t ℚ → Bool → ℚ

/-- `bike_tracker_t::IDLE_THRESHOLD = 4.0f * 1000.0f / 3600.0f` (m/s). -/
def IDLE_THRESHOLD : ℚ := 4 * 1000 / 3600

/-- `bike_tracker_t::GPS_RETRY_DELAY` (seconds). -/
def GPS_RETRY_DELAY : ℕ := 5

/-- `bike_tracker_t::RADIO_RETRY_DELAY` (seconds). -/
def RADIO_RETRY_DELAY : ℕ := 60

/-- `bike_tracker_t::GPS_ALT_SMOOTHER_FACTOR = 0.2f`. -/
def GPS_ALT_SMOOTHER_FACTOR : ℚ := 1 / 5

/-- `bike_tracker_t::TRACKING_GPS_PROBE_DELAY` (seconds). -/
def TRACKING_GPS_PROBE_DELAY : ℕ := 20

/-- `bike_tracker_t::TRACKING_RADIO_DELAY` (seconds). -/
def TRACKING_RADIO_DELAY : ℕ := 3 * 60

/-- `bike_tracker_t::TRACKING_IDLE_PROBES`. -/
def TRACKING_IDLE_PROBES : ℕ := 9

/-- `bike_tracker_t::TRACKING_IDLE_BUFFER_SIZE`. -/
def TRACKING_IDLE_BUFFER_SIZE : ℕ := 12

/-- `bike_tracker_t::POWER_SAVE_GPS_PROBE_DELAY` (seconds). -/
def POWER_SAVE_GPS_PROBE_DELAY : ℕ := 60 * 60

/-- `bike_tracker_t::state_t`. -/
inductive state_t
  | TRACKING
  | POWER_SAVE
deriving DecidableEq

/-- `bike_tracker_t::probe_result_t`. -/
inductive probe_result_t
  | NO_FIX
  | IDLE
  | MOVING
  | UNKNOWN
deriving DecidableEq

/-- The anonymous `gps_` member struct of `bike_tracker_t`, together with the
`powered_on_` flag of the owned `gps_t` device (src/unnamed/part_000).
`idle_probes` models `etl::queue<bool, TRACKING_IDLE_BUFFER_SIZE>` with the
front of the queue at the head of the list. -/
structure gps_state_t where
  powered_on : Bool
  next_probe_time : ℕ
  has_position : Bool
  last_position : position_t
  last_position_time : ℕ
  smoothed_alt : ℚ
  distance : ℚ
  alt_gain : ℚ
  max_speed : ℚ
  idle_probes : List Bool
  n_idle : ℕ
deriving DecidableEq

/-- The anonymous `radio_` member struct of `bike_tracker_t`:
`next_msg_time` is `etl::optional<uint32_t>` (`none` means no planned
message). -/
structure radio_state_t where
  last_msg_time : ℕ
  next_msg_time : Option ℕ
deriving DecidableEq

/-- The `movement_detector_t` latch: `enabled` tracks whether the interrupt is
attached (`enable()` / `disable()`), `detected` is the `detected_` flag set by
the interrupt handler and cleared by `reset()`. -/
structure movement_state_t where
  enabled : Bool
  detected : Bool
deriving DecidableEq

/-- The whole `bike_tracker_t` mutable state. -/
structure tracker_t where
  state : state_t
  gps : gps_state_t
  radio : radio_state_t
  movement : movement_state_t
deriving DecidableEq

/-- One `loop()` tick's environment inputs: the RTC reading
(`clock_.getY2kEpoch()`), whether a movement interrupt fired since the
previous tick, the sample `gps_t::get_position()` returns, and the downlink
acknowledgment `radio_t::send` returns (`none` on a failed transmission). -/
structure env_t where
  now : ℕ
  movement_event : Bool
  gps_sample : position_t
  radio_response : Option ℕ

/-- A `date_time_t` with no valid parts (used for sample literals). -/
def no_date_time : date_time_t :=
  { has_date := false, year := 0, month := 0, day := 0,
    has_time := false, hour := 0, minute := 0, second := 0 }

/-- The idle-window push of `loop_tracking` (src/bike_tracker.hpp lines
139-154): when the queue is full, pop the front and decrement `n_idle` if the
popped entry was `true`; then increment `n_idle` if the new entry is `true`
and push it at the back. -/
def push_idle_probe (g : gps_state_t) (is_idle : Bool) : gps_state_t :=
  let g1 :=
    if g.idle_probes.length = TRACKING_IDLE_BUFFER_SIZE then
      { g with
        n_idle := if g.idle_probes.headI then g.n_idle - 1 else g.n_idle,
        idle_probes := g.idle_probes.tail }
    else g
  let g2 := if is_idle then { g1 with n_idle := g1.n_idle + 1 } else g1
  { g2 with idle_probes := g2.idle_probes ++ [is_idle] }

/-- Feeding a sequence of classified probes (booleans, `true` = `IDLE`) into
the idle window. -/
def feed_window (g : gps_state_t) (bs : List Bool) : gps_state_t :=
  bs.foldl push_idle_probe g

/-- The most recent at-most-`n` elements of a list. -/
def lastN (n : ℕ) (l : List Bool) : List Bool :=
  l.drop (l.length - n)

/-- `bike_tracker_t::probe_gps` (src/bike_tracker.hpp lines 286-362).
`gps_t::get_position` powers the GPS back on when it was asleep, hence
`powered_on := true` even on an unsuccessful probe. On a usable fix with a
previous position the classifier computes speed `dist / delta_secs`; note the
recursively smoothed altitude is computed into a block-local variable and
never written back to `gps_.smoothed_alt`. -/
def probe_gps (dist : dist_fn) (t : tracker_t) (now : ℕ)
    (position : position_t) : probe_result_t × tracker_t :=
  let success := position.has_gnss_fix && decide (0 < position.n_satellites)
  let g0 := { t.gps with powered_on := true }
  if success then
    if g0.has_position then
      let delta_secs : ℚ := ((now - g0.last_position_time : ℕ) : ℚ)
      let dist_m := dist position.coordinates g0.last_position.coordinates false
      let speed := dist_m / delta_secs
      let smoothed_alt :=
        g0.smoothed_alt * (1 - GPS_ALT_SMOOTHER_FACTOR) +
        position.coordinates.alt * GPS_ALT_SMOOTHER_FACTOR
      let alt_gain :=
        if smoothed_alt > g0.smoothed_alt then smoothed_alt - g0.smoothed_alt
        else 0
      let horiz_dist := dist position.coordinates g0.last_position.coordinates true
      let horiz_speed := horiz_dist / delta_secs
      let is_idle := decide (horiz_speed < IDLE_THRESHOLD)
      if is_idle then
        (probe_result_t.IDLE,
         { t with gps := { g0 with
             has_position := true, last_position := position,
             last_position_time := now } })
      else
        (probe_result_t.MOVING,
         { t with gps := { g0 with
             distance := g0.distance + dist_m,
             alt_gain := g0.alt_gain + alt_gain,
             max_speed := if speed > g0.max_speed then speed else g0.max_speed,
             has_position := true, last_position := position,
             last_position_time := now } })
    else
      (probe_result_t.UNKNOWN,
       { t with gps := { g0 with
           smoothed_alt := position.coordinates.alt,
           has_position := true, last_position := position,
           last_position_time := now } })
  else
    (probe_result_t.NO_FIX, { t with gps := g0 })

/-- Rounding of the C `round` function (half away from zero), on exact
rationals. -/
def roundf (q : ℚ) : ℤ :=
  if 0 ≤ q then ⌊q + 1 / 2⌋ else ⌈q - 1 / 2⌉

/-- Narrowing into a `uint8_t` field (wrap-around, per the spec's
"clamped by the field width (wrap/truncate at the encoder, not asserted)"). -/
def to_uint8 (z : ℤ) : ℕ :=
  (z % 256).toNat

/-- Modelled from the spec: `radio_t::location_msg_t` of the revision that
`bike_tracker_t::send_location_msg` (src/bike_tracker.hpp line 380) constructs
with `{lat, lng, alt, distance, alt_gain, max_speed}`. That revision is
missing from src/ — src/radio.hpp holds an earlier revision without the
altitude field whose constructor does not match the call site — so the record
follows the spec: raw latitude (4-byte float), raw longitude (4-byte float),
altitude / 8 (1 byte), distance since last message / 16 (1 byte), altitude
gain / 2 (1 byte), max speed / 16 (1 byte). Byte fields hold the already
scaled and narrowed values. -/
structure location_msg_t where
  lat : ℚ
  lng : ℚ
  alt : ℕ
  dist : ℕ
  alt_gain : ℕ
  max_speed : ℕ
deriving DecidableEq

/-- Modelled from the spec: the `location_msg_t` constructor taking the
actual, non-scaled values; each scaled field is `round(value / divisor)`
stored into a one-byte field, with divisors 8 (altitude), 16 (distance),
2 (altitude gain), 16 (max speed). -/
def location_msg_t.encode (lat lng alt dist alt_gain max_speed : ℚ) :
    location_msg_t :=
  { lat := lat
    lng := lng
    alt := to_uint8 (roundf (alt / 8))
    dist := to_uint8 (roundf (dist / 16))
    alt_gain := to_uint8 (roundf (alt_gain / 2))
    max_speed := to_uint8 (roundf (max_speed / 16)) }

/-- The packed size of `location_msg_t` in bytes: two 4-byte floats and four
one-byte fields (`static_assert(sizeof(msg) <= 12)` in `radio_t::send`). -/
def location_msg_t.size_bytes : ℕ :=
  4 + 4 + 1 + 1 + 1 + 1

/-- The message-building part of `bike_tracker_t::send_location_msg`
(src/bike_tracker.hpp lines 368-380): use the last position if it is newer
than the last transmitted message, otherwise the `(0, 0)` sentinel; then
construct the telemetry record. -/
def location_msg (t : tracker_t) : location_msg_t :=
  if t.gps.has_position && decide (t.radio.last_msg_time < t.gps.last_position_time) then
    location_msg_t.encode
      t.gps.last_position.coordinates.lat
      t.gps.last_position.coordinates.lng
      t.gps.last_position.coordinates.alt
      t.gps.distance t.gps.alt_gain t.gps.max_speed
  else
    location_msg_t.encode 0 0 0 t.gps.distance t.gps.alt_gain t.gps.max_speed

/-- `bike_tracker_t::send_location_msg` (src/bike_tracker.hpp lines 364-393):
the record `location_msg t` is handed to `radio_t::send`, whose downlink
acknowledgment is the environment input `response`. On a non-absent
acknowledgment the accumulator is zeroed and `last_msg_time` advanced to
`now`; otherwise the state is left untouched. Returns the updated state and
`response.has_value()`. -/
def send_location_msg (t : tracker_t) (now : ℕ) (response : Option ℕ) :
    tracker_t × Bool :=
  match response with
  | some _ =>
    ({ t with
       gps := { t.gps with distance := 0, alt_gain := 0, max_speed := 0 },
       radio := { t.radio with last_msg_time := now } }, true)
  | none => (t, false)

/-- The GPS-probe block of `loop_tracking` (src/bike_tracker.hpp lines
131-155): probe when due; on `NO_FIX` reschedule after the retry delay,
otherwise reschedule after the tracking interval and push the classification
into the idle window unless it was `UNKNOWN`. -/
def tracking_probe_step (dist : dist_fn) (t : tracker_t) (now : ℕ)
    (sample : position_t) : tracker_t :=
  if t.gps.next_probe_time ≤ now then
    let r := probe_gps dist t now sample
    if r.1 = probe_result_t.NO_FIX then
      { r.2 with gps := { r.2.gps with next_probe_time := now + GPS_RETRY_DELAY } }
    else
      let t2 := { r.2 with gps :=
        { r.2.gps with next_probe_time := now + TRACKING_GPS_PROBE_DELAY } }
      if r.1 ≠ probe_result_t.UNKNOWN then
        { t2 with gps := push_idle_probe t2.gps (decide (r.1 = probe_result_t.IDLE)) }
      else t2
  else t

/-- The radio block of `loop_tracking` (src/bike_tracker.hpp lines 158-166):
when a message is planned and due, attempt it; reschedule after the tracking
interval on success, after the retry delay on failure. -/
def tracking_radio_step (t : tracker_t) (now : ℕ) (response : Option ℕ) :
    tracker_t :=
  match t.radio.next_msg_time with
  | some nmt =>
    if nmt ≤ now then
      let r := send_location_msg t now response
      if r.2 then
        { r.1 with radio :=
          { r.1.radio with next_msg_time := some (now + TRACKING_RADIO_DELAY) } }
      else
        { r.1 with radio :=
          { r.1.radio with next_msg_time := some (now + RADIO_RETRY_DELAY) } }
    else t
  | none => t

/-- `bike_tracker_t::to_power_save` (src/bike_tracker.hpp lines 242-258):
enter `POWER_SAVE`, put the GPS to sleep, schedule the next probe from the
last fix time (or a short retry when no fix exists), reset and enable the
movement detector. -/
def to_power_save (t : tracker_t) (now : ℕ) : tracker_t :=
  { t with
    state := state_t.POWER_SAVE,
    gps := { t.gps with
      powered_on := false,
      next_probe_time :=
        if t.gps.has_position then
          t.gps.last_position_time + POWER_SAVE_GPS_PROBE_DELAY
        else now + GPS_RETRY_DELAY },
    movement := { enabled := true, detected := false } }

/-- `bike_tracker_t::to_tracking` (src/bike_tracker.hpp lines 222-240):
enter `TRACKING`, wake the GPS, probe immediately, clear the idle window,
bound the next transmission by `now + TRACKING_RADIO_DELAY`, disable the
movement detector. -/
def to_tracking (t : tracker_t) (now : ℕ) : tracker_t :=
  { t with
    state := state_t.TRACKING,
    gps := { t.gps with
      powered_on := true,
      next_probe_time := now,
      idle_probes := [],
      n_idle := 0 },
    radio := { t.radio with
      next_msg_time :=
        match t.radio.next_msg_time with
        | some v => some (min v (now + TRACKING_RADIO_DELAY))
        | none => some (now + TRACKING_RADIO_DELAY) },
    movement := { t.movement with enabled := false } }

/-- `bike_tracker_t::loop_tracking` (src/bike_tracker.hpp lines 129-174):
probe block, then radio block, then transition to `POWER_SAVE` when the idle
count reaches the threshold (the `sleep` call has no effect on the modelled
state). -/
def loop_tracking (dist : dist_fn) (t : tracker_t) (e : env_t) : tracker_t :=
  let t1 := tracking_probe_step dist t e.now e.gps_sample
  let t2 := tracking_radio_step t1 e.now e.radio_response
  if TRACKING_IDLE_PROBES ≤ t2.gps.n_idle then to_power_save t2 e.now else t2

/-- The GPS-probe block of `loop_power_save` (src/bike_tracker.hpp lines
186-203): probe when due; on `NO_FIX` reschedule after the retry delay; on
success put the GPS to sleep, reschedule after the power-save interval and
schedule an immediate transmission. Returns the updated state and whether
this block detected movement (outcome other than `IDLE`). -/
def power_save_probe_step (dist : dist_fn) (t : tracker_t) (now : ℕ)
    (sample : position_t) : tracker_t × Bool :=
  if t.gps.next_probe_time ≤ now then
    let r := probe_gps dist t now sample
    if r.1 = probe_result_t.NO_FIX then
      ({ r.2 with gps := { r.2.gps with next_probe_time := now + GPS_RETRY_DELAY } },
       false)
    else
      ({ r.2 with
         gps := { r.2.gps with
           powered_on := false,
           next_probe_time := now + POWER_SAVE_GPS_PROBE_DELAY },
         radio := { r.2.radio with next_msg_time := some now } },
       decide (r.1 ≠ probe_result_t.IDLE))
  else (t, false)

/-- The radio block of `loop_power_save` (src/bike_tracker.hpp lines
205-213): when a message is planned and due, attempt it; clear the plan on
success, reschedule a retry on failure. -/
def power_save_radio_step (t : tracker_t) (now : ℕ) (response : Option ℕ) :
    tracker_t :=
  match t.radio.next_msg_time with
  | some nmt =>
    if nmt ≤ now then
      let r := send_location_msg t now response
      if r.2 then
        { r.1 with radio := { r.1.radio with next_msg_time := none } }
      else
        { r.1 with radio :=
          { r.1.radio with next_msg_time := some (now + RADIO_RETRY_DELAY) } }
    else t
  | none => t

/-- `bike_tracker_t::loop_power_save` (src/bike_tracker.hpp lines 176-220):
read the movement latch, run the probe block and the radio block, then
transition to `TRACKING` when movement was detected this tick. -/
def loop_power_save (dist : dist_fn) (t : tracker_t) (e : env_t) : tracker_t :=
  let movement0 := t.movement.detected
  let r := power_save_probe_step dist t e.now e.gps_sample
  let movement := movement0 || r.2
  let t2 := power_save_radio_step r.1 e.now e.radio_response
  if movement then to_tracking t2 e.now else t2

/-- The asynchronous movement interrupt: while the interrupt is attached
(`enable()`), a hardware event sets the `detected_` latch. Applied at the
start of each modelled tick. -/
def latch_movement (t : tracker_t) (e : env_t) : tracker_t :=
  if t.movement.enabled && e.movement_event then
    { t with movement := { t.movement with detected := true } }
  else t

/-- `bike_tracker_t::loop` (src/bike_tracker.hpp lines 69-83): dispatch one
tick on the current state. -/
def loop (dist : dist_fn) (t : tracker_t) (e : env_t) : tracker_t :=
  let t1 := latch_movement t e
  match t1.state with
  | state_t.TRACKING => loop_tracking dist t1 e
  | state_t.POWER_SAVE => loop_power_save dist t1 e

/-- Run a sequence of ticks. -/
def run (dist : dist_fn) (t : tracker_t) (es : List env_t) : tracker_t :=
  es.foldl (loop dist) t

/-- The `bike_tracker_t` state after `setup()`: initial state `TRACKING`,
first probe due immediately, no position yet, empty accumulator and idle
window, first transmission planned at `TRACKING_RADIO_DELAY`, movement
detector detached. Members the C++ code leaves uninitialised until the first
fix (`last_position`, `last_position_time`, `smoothed_alt`) are given zero
values; they are only read once `has_position` is set. -/
def init_state : tracker_t :=
  { state := state_t.TRACKING,
    gps := { powered_on := true,
             next_probe_time := 0,
             has_position := false,
             last_position :=
               { has_gnss_fix := false, n_satellites := 0,
                 coordinates := { lat := 0, lng := 0, alt := 0 },
                 date_time := no_date_time },
             last_position_time := 0,
             smoothed_alt := 0,
             distance := 0,
             alt_gain := 0,
             max_speed := 0,
             idle_probes := [],
             n_idle := 0 },
    radio := { last_msg_time := 0, next_msg_time := some TRACKING_RADIO_DELAY },
    movement := { enabled := false, detected := false } }

/-- Exactly the condition under which the source line
`float speed = dist / delta_secs;` of `probe_gps` executes with
`delta_secs == 0` during a tick: the probe is due, the sample is usable, a
previous position exists, and the elapsed time since it is zero. -/
def tick_divides_by_zero (t : tracker_t) (e : env_t) : Bool :=
  decide (t.gps.next_probe_time ≤ e.now) &&
  (e.gps_sample.has_gnss_fix && decide (0 < e.gps_sample.n_satellites)) &&
  t.gps.has_position &&
  decide (e.now - t.gps.last_position_time = 0)

/-- Whether some tick of a run performs the zero-divisor division of
`probe_gps`. -/
def run_hits_div_by_zero (dist : dist_fn) (t : tracker_t) :
    List env_t → Bool
  | [] => false
  | e :: es =>
    tick_divides_by_zero t e || run_hits_div_by_zero dist (loop dist t e) es

/-- A degenerate distance function (all distances zero), used for concrete
executions where only the control flow matters. -/
def dist0 : dist_fn := fun _ _ _ => 0

/-- A usable GPS sample at the origin with the given altitude. -/
def sample_ok (alt : ℚ) : position_t :=
  { has_gnss_fix := true, n_satellites := 5,
    coordinates := { lat := 0, lng := 0, alt := alt },
    date_time := no_date_time }

/-- An unusable GPS sample (no fix). -/
def sample_no_fix : position_t :=
  { has_gnss_fix := false, n_satellites := 0,
    coordinates := { lat := 0, lng := 0, alt := 0 },
    date_time := no_date_time }

/-- A tick environment for the concrete executions. -/
def c4_env (now : ℕ) (mv : Bool) : env_t :=
  { now := now, movement_event := mv, gps_sample := sample_ok 0,
    radio_response := none }

/-- A concrete boot trace reaching the zero-divisor division: ten probes at
seconds 0, 20, ..., 180 (the first `UNKNOWN`, then nine `IDLE` probes, which
sends the machine to `POWER_SAVE` at second 180), a movement interrupt still
within second 180 (the transition back to `TRACKING` sets the next probe time
to `now` and skips the sleep), and one more tick still within second 180
whose probe then runs with `delta_secs == 0`. -/
def c4_trace : List env_t :=
  [c4_env 0 false, c4_env 20 false, c4_env 40 false, c4_env 60 false,
   c4_env 80 false, c4_env 100 false, c4_env 120 false, c4_env 140 false,
   c4_env 160 false, c4_env 180 false, c4_env 180 true, c4_env 180 false]

/-- The idle-window representation invariant, relative to the whole sequence
`done` of booleans pushed so far: the queue holds the most recent at-most-12
pushes and `n_idle` counts the `true` entries among them. -/
def window_inv (g : gps_state_t) (done : List Bool) : Prop :=
  g.idle_probes = lastN TRACKING_IDLE_BUFFER_SIZE done ∧
  g.n_idle = (lastN TRACKING_IDLE_BUFFER_SIZE done).count true

/-- C1: for every transmission attempt made by `send_location_msg`, a
non-absent radio acknowledgment resets the trip accumulator (distance,
alt_gain, max_speed) to exactly zero and sets the last-transmission timestamp
to `now` (and changes nothing else), while an absent acknowledgment leaves
the whole tracker state exactly unchanged. -/
theorem C1_send_ack_resets_accumulator (t : tracker_t) (now : ℕ) (ack : ℕ) :
    send_location_msg t now (some ack) =
      ({ t with
         gps := { t.gps with distance := 0, alt_gain := 0, max_speed := 0 },
         radio := { t.radio with last_msg_time := now } }, true) ∧
    send_location_msg t now none = (t, false) :=
  ⟨rfl, rfl⟩

/-- C2: the telemetry encoder packs each scalar as `round(value / divisor)`
into a one-byte field with divisors 8 (altitude), 16 (distance), 2 (altitude
gain), 16 (max speed); encoding `(50.85, 4.35, 104, 1000, 12, 10)` yields
bytes 13, 63, 6, 1 with latitude and longitude stored raw, in a record of at
most 12 bytes. -/
theorem C2_telemetry_encoding :
    (∀ lat lng alt dist alt_gain max_speed : ℚ,
      location_msg_t.encode lat lng alt dist alt_gain max_speed =
        { lat := lat, lng := lng,
          alt := to_uint8 (roundf (alt / 8)),
          dist := to_uint8 (roundf (dist / 16)),
          alt_gain := to_uint8 (roundf (alt_gain / 2)),
          max_speed := to_uint8 (roundf (max_speed / 16)) }) ∧
    location_msg_t.encode 50.85 4.35 104 1000 12 10 =
      { lat := 50.85, lng := 4.35, alt := 13, dist := 63,
        alt_gain := 6, max_speed := 1 } ∧
    (∀ z : ℤ, to_uint8 z < 256) ∧
    location_msg_t.size_bytes ≤ 12 := by
  refine ⟨fun _ _ _ _ _ _ => rfl, by decide, fun z => ?_, by decide⟩
  unfold to_uint8
  omega

/-- C3: the smoothed-altitude state is seeded from the first usable fix but,
contrary to the claim, it is never updated afterwards: `probe_gps` computes
the new exponential average into a block-local variable and never stores it,
so after a second usable fix with a different raw altitude the stored value
still equals the seed (50) instead of the exponential update
`50 * (1 - 1/5) + 100 * (1/5) = 60`. -/
theorem C3_smoothed_alt_never_updated :
    (probe_gps dist0 init_state 0 (sample_ok 50)).2.gps.smoothed_alt = 50 ∧
    (probe_gps dist0 (probe_gps dist0 init_state 0 (sample_ok 50)).2 10
        (sample_ok 100)).2.gps.smoothed_alt = 50 ∧
    (50 : ℚ) * (1 - GPS_ALT_SMOOTHER_FACTOR) + 100 * GPS_ALT_SMOOTHER_FACTOR
      = 60 := by
  refine ⟨by decide, by decide, by decide⟩

/-- C4: contrary to the claim, the state machine does reach the classifier
with non-strictly-increasing timestamps: on the concrete boot trace
`c4_trace` (nine idle probes send the machine to `POWER_SAVE`, a movement
interrupt within the same RTC second re-enters `TRACKING` with the next probe
due at `now` and no intervening sleep, and the next tick still reads the same
second), `probe_gps` executes `speed = dist / delta_secs` with
`delta_secs == 0`. -/
theorem C4_division_by_zero_reachable :
    run_hits_div_by_zero dist0 init_state c4_trace = true := by
  decide

/-- The haversine intermediate value of `gps_t::distance` is symmetric in the
two coordinates. -/
theorem haversine_term_sym (a b : coordinates_t ℝ) :
    Real.sin (to_radians (a.lat - b.lat) / 2) ^ 2
      + Real.cos (to_radians a.lat) * Real.cos (to_radians b.lat)
        * Real.sin (to_radians (a.lng - b.lng) / 2) ^ 2
    = Real.sin (to_radians (b.lat - a.lat) / 2) ^ 2
      + Real.cos (to_radians b.lat) * Real.cos (to_radians a.lat)
        * Real.sin (to_radians (b.lng - a.lng) / 2) ^ 2 := by
  have h : ∀ x y : ℝ,
      Real.sin (to_radians (x - y) / 2) ^ 2
        = Real.sin (to_radians (y - x) / 2) ^ 2 := by
    intro x y
    have hneg : to_radians (x - y) / 2 = -(to_radians (y - x) / 2) := by
      unfold to_radians; ring
    rw [hneg, Real.sin_neg, neg_sq]
  rw [h a.lat b.lat, h a.lng b.lng,
    mul_comm (Real.cos (to_radians a.lat)) (Real.cos (to_radians b.lat))]

/-- C6: `gps_t::distance` is symmetric in its two coordinates for either
value of the `ignore_alt` flag, yields exactly 0 on identical coordinates
with the altitude included, and with `ignore_alt = true` does not depend on
the altitude fields of either argument. -/
theorem C6_distance_properties :
    (∀ (a b : coordinates_t ℝ) (x : Bool),
      gps_t.distance a b x = gps_t.distance b a x) ∧
    (∀ a : coordinates_t ℝ, gps_t.distance a a false = 0) ∧
    (∀ la lg lb lgb aa ab aa2 ab2 : ℝ,
      gps_t.distance ⟨la, lg, aa⟩ ⟨lb, lgb, ab⟩ true
        = gps_t.distance ⟨la, lg, aa2⟩ ⟨lb, lgb, ab2⟩ true) := by
  refine ⟨fun a b x => ?_, fun a => ?_, fun la lg lb lgb aa ab aa2 ab2 => ?_⟩
  · simp only [gps_t.distance]
    rw [haversine_term_sym a b, abs_sub_comm a.alt b.alt]
  · simp only [gps_t.distance, sub_self]
    have h0 : to_radians 0 = 0 := by unfold to_radians; ring
    simp [h0, Real.sqrt_one, atan2, Real.arctan_zero]
  · simp [gps_t.distance]

theorem lastN_of_le (n : ℕ) (l : List Bool) (h : l.length ≤ n) :
    lastN n l = l := by
  unfold lastN
  rw [Nat.sub_eq_zero_of_le h, List.drop_zero]

theorem lastN_length (n : ℕ) (l : List Bool) :
    (lastN n l).length = min n l.length := by
  unfold lastN
  rw [List.length_drop]
  omega

theorem lastN_append_of_lt (n : ℕ) (l : List Bool) (b : Bool)
    (h : l.length < n) : lastN n (l ++ [b]) = lastN n l ++ [b] := by
  rw [lastN_of_le n l (le_of_lt h), lastN_of_le]
  simp only [List.length_append, List.length_singleton]
  omega

theorem lastN_append_of_ge (n : ℕ) (l : List Bool) (b : Bool)
    (hn : 0 < n) (h : n ≤ l.length) :
    lastN n (l ++ [b]) = (lastN n l).tail ++ [b] := by
  unfold lastN
  rw [List.tail_drop, List.length_append, List.length_singleton,
    List.drop_append_of_le_length (by omega)]
  congr 2
  omega

/-- Pushing into the window preserves the representation invariant. -/
theorem push_idle_probe_inv (g : gps_state_t) (done : List Bool) (b : Bool)
    (h : window_inv g done) : window_inv (push_idle_probe g b) (done ++ [b]) := by
  obtain ⟨hbuf, hcnt⟩ := h
  by_cases hlen : done.length < TRACKING_IDLE_BUFFER_SIZE
  · have hb : ¬ g.idle_probes.length = TRACKING_IDLE_BUFFER_SIZE := by
      rw [hbuf, lastN_length]; omega
    have hlast : lastN TRACKING_IDLE_BUFFER_SIZE (done ++ [b])
        = lastN TRACKING_IDLE_BUFFER_SIZE done ++ [b] :=
      lastN_append_of_lt _ _ _ hlen
    constructor
    · simp only [push_idle_probe, hb, if_false, hlast]
      cases b <;> simp [hbuf]
    · simp only [push_idle_probe, hb, if_false, hlast]
      cases b <;> simp [hcnt, List.count_append]
  · have hge : TRACKING_IDLE_BUFFER_SIZE ≤ done.length := by omega
    have hfull : g.idle_probes.length = TRACKING_IDLE_BUFFER_SIZE := by
      rw [hbuf, lastN_length]; omega
    have hne : g.idle_probes ≠ [] := by
      intro hnil; rw [hnil] at hfull; simp [TRACKING_IDLE_BUFFER_SIZE] at hfull
    obtain ⟨hd, tl, hcons⟩ := List.exists_cons_of_ne_nil hne
    have hhead : g.idle_probes.headI = hd := by rw [hcons]; rfl
    have htail : g.idle_probes.tail = tl := by rw [hcons]; rfl
    have hlast : lastN TRACKING_IDLE_BUFFER_SIZE (done ++ [b])
        = tl ++ [b] := by
      rw [lastN_append_of_ge _ _ _ (by decide) hge, ← hbuf, htail]
    have hcnt2 : g.n_idle = tl.count true + (if hd then 1 else 0) := by
      rw [hcnt, ← hbuf, hcons]
      cases hd <;> simp [List.count_cons]
    constructor
    · simp only [push_idle_probe, hfull, if_true, hlast, htail]
      cases b <;> simp
    · simp only [push_idle_probe, hfull, if_true, hlast, htail, hhead]
      have : (tl ++ [b]).count true = tl.count true + (if b then 1 else 0) := by
        cases b <;> simp [List.count_append]
      cases hd <;> cases b <;> simp_all <;> omega

/-- Feeding a sequence preserves the representation invariant. -/
theorem feed_window_inv (bs : List Bool) :
    ∀ (g : gps_state_t) (done : List Bool), window_inv g done →
      window_inv (feed_window g bs) (done ++ bs) := by
  induction bs with
  | nil => intro g done h; simpa [feed_window] using h
  | cons b bs ih =>
    intro g done h
    have h2 := ih (push_idle_probe g b) (done ++ [b]) (push_idle_probe_inv g done b h)
    simpa [feed_window, List.append_assoc] using h2

/-- The invariant instantiated at the boot state. -/
theorem feed_window_init (bs : List Bool) :
    window_inv (feed_window init_state.gps bs) bs := by
  have h := feed_window_inv bs init_state.gps [] ⟨rfl, rfl⟩
  simpa using h

/-- The shape of a single push: when the buffer is full the oldest entry is
evicted before the new one is appended. -/
theorem push_idle_probe_buf (g : gps_state_t) (b : Bool) :
    (push_idle_probe g b).idle_probes =
      (if g.idle_probes.length = TRACKING_IDLE_BUFFER_SIZE
       then g.idle_probes.tail else g.idle_probes) ++ [b] := by
  by_cases hf : g.idle_probes.length = TRACKING_IDLE_BUFFER_SIZE <;>
    cases b <;> simp [push_idle_probe, hf]

/-- The count bookkeeping of a single push: the count is decremented exactly
when the evicted entry was `true`, incremented exactly when the new entry is
`true`. -/
theorem push_idle_probe_count (g : gps_state_t) (b : Bool)
    (h : g.n_idle = g.idle_probes.count true) :
    (push_idle_probe g b).n_idle +
      (if g.idle_probes.length = TRACKING_IDLE_BUFFER_SIZE ∧ g.idle_probes.headI
       then 1 else 0)
    = g.n_idle + (if b then 1 else 0) := by
  by_cases hf : g.idle_probes.length = TRACKING_IDLE_BUFFER_SIZE
  · have hne : g.idle_probes ≠ [] := by
      intro hnil; rw [hnil] at hf; simp [TRACKING_IDLE_BUFFER_SIZE] at hf
    obtain ⟨hd, tl, hcons⟩ := List.exists_cons_of_ne_nil hne
    have hhead : g.idle_probes.headI = hd := by rw [hcons]; rfl
    have hcnt : g.n_idle = tl.count true + (if hd then 1 else 0) := by
      rw [h, hcons]; cases hd <;> simp [List.count_cons]
    cases hd <;> cases b <;> simp_all [push_idle_probe, hf, hhead]
  · cases b <;> simp [push_idle_probe, hf]

/-- C5: after any sequence of pushes into the idle window, `n_idle` equals
the number of `true` entries currently in the buffer, which holds the most
recent at-most-12 pushes; a push onto a full buffer evicts the oldest entry
first and decrements the count exactly when the evicted entry was `true`;
clearing the window (`to_tracking`) resets the buffer and the count to
zero. -/
theorem C5_idle_window_invariant (bs : List Bool) (b : Bool) (t : tracker_t)
    (now : ℕ) :
    (feed_window init_state.gps bs).n_idle
      = (feed_window init_state.gps bs).idle_probes.count true ∧
    (feed_window init_state.gps bs).idle_probes
      = lastN TRACKING_IDLE_BUFFER_SIZE bs ∧
    (push_idle_probe (feed_window init_state.gps bs) b).idle_probes =
      (if (feed_window init_state.gps bs).idle_probes.length
          = TRACKING_IDLE_BUFFER_SIZE
       then (feed_window init_state.gps bs).idle_probes.tail
       else (feed_window init_state.gps bs).idle_probes) ++ [b] ∧
    (push_idle_probe (feed_window init_state.gps bs) b).n_idle +
      (if (feed_window init_state.gps bs).idle_probes.length
            = TRACKING_IDLE_BUFFER_SIZE ∧
          (feed_window init_state.gps bs).idle_probes.headI
       then 1 else 0)
      = (feed_window init_state.gps bs).n_idle + (if b then 1 else 0) ∧
    (to_tracking t now).gps.n_idle = 0 ∧
    (to_tracking t now).gps.idle_probes = [] := by
  obtain ⟨hbuf, hcnt⟩ := feed_window_init bs
  refine ⟨by rw [hbuf, hcnt], hbuf, push_idle_probe_buf _ b,
    push_idle_probe_count _ b (by rw [hbuf, hcnt]), rfl, rfl⟩

theorem latch_movement_state (t : tracker_t) (e : env_t) :
    (latch_movement t e).state = t.state := by
  unfold latch_movement
  split <;> rfl

theorem latch_movement_gps (t : tracker_t) (e : env_t) :
    (latch_movement t e).gps = t.gps := by
  unfold latch_movement
  split <;> rfl

theorem latch_movement_radio (t : tracker_t) (e : env_t) :
    (latch_movement t e).radio = t.radio := by
  unfold latch_movement
  split <;> rfl

theorem probe_gps_state (d : dist_fn) (t : tracker_t) (n : ℕ)
    (p : position_t) : ((probe_gps d t n p).2).state = t.state := by
  unfold probe_gps
  dsimp only
  split
  · split
    · split <;> rfl
    · rfl
  · rfl

theorem send_location_msg_state (t : tracker_t) (n : ℕ) (r : Option ℕ) :
    ((send_location_msg t n r).1).state = t.state := by
  cases r <;> rfl

theorem tracking_probe_step_state (d : dist_fn) (t : tracker_t) (n : ℕ)
    (s : position_t) : (tracking_probe_step d t n s).state = t.state := by
  unfold tracking_probe_step
  dsimp only
  split
  · split
    · exact probe_gps_state d t n s
    · split <;> exact probe_gps_state d t n s
  · rfl

theorem tracking_radio_step_state (t : tracker_t) (n : ℕ) (r : Option ℕ) :
    (tracking_radio_step t n r).state = t.state := by
  unfold tracking_radio_step
  dsimp only
  split
  · split
    · split <;> exact send_location_msg_state t n r
    · rfl
  · rfl

theorem power_save_probe_step_state (d : dist_fn) (t : tracker_t) (n : ℕ)
    (s : position_t) : ((power_save_probe_step d t n s).1).state = t.state := by
  unfold power_save_probe_step
  dsimp only
  split
  · split <;> exact probe_gps_state d t n s
  · rfl

theorem power_save_radio_step_state (t : tracker_t) (n : ℕ) (r : Option ℕ) :
    (power_save_radio_step t n r).state = t.state := by
  unfold power_save_radio_step
  dsimp only
  split
  · split
    · split <;> exact send_location_msg_state t n r
    · rfl
  · rfl

/-- In state `TRACKING`, one tick runs `loop_tracking` on the latched
state. -/
theorem loop_eq_loop_tracking (d : dist_fn) (t : tracker_t) (e : env_t)
    (h : t.state = state_t.TRACKING) :
    loop d t e = loop_tracking d (latch_movement t e) e := by
  unfold loop
  dsimp only
  rw [latch_movement_state, h]

/-- In state `POWER_SAVE`, one tick runs `loop_power_save` on the latched
state. -/
theorem loop_eq_loop_power_save (d : dist_fn) (t : tracker_t) (e : env_t)
    (h : t.state = state_t.POWER_SAVE) :
    loop d t e = loop_power_save d (latch_movement t e) e := by
  unfold loop
  dsimp only
  rw [latch_movement_state, h]

/-- C7: in state `TRACKING`, at the end of any tick the machine is in
`POWER_SAVE` exactly when the idle count after the probe and radio blocks has
reached the threshold of 9; and for any window-bounded sequence of 12
classifications containing 9 `IDLE`, the idle count of any prefix reaches the
threshold exactly when the prefix already contains all 9 `IDLE` entries — so
the transition fires on the tick where the 9th `true` is counted, whatever
the interleaving. -/
theorem C7_idle_threshold_to_power_save (dist : dist_fn) (t : tracker_t)
    (e : env_t) (bs : List Bool) (i : ℕ)
    (hstate : t.state = state_t.TRACKING)
    (hlen : bs.length = 12) (hcount : bs.count true = 9) :
    ((loop dist t e).state = state_t.POWER_SAVE ↔
      TRACKING_IDLE_PROBES ≤
        (tracking_radio_step
          (tracking_probe_step dist (latch_movement t e) e.now e.gps_sample)
          e.now e.radio_response).gps.n_idle) ∧
    (feed_window init_state.gps bs).n_idle = 9 ∧
    (TRACKING_IDLE_PROBES ≤ (feed_window init_state.gps (bs.take i)).n_idle ↔
      9 ≤ (bs.take i).count true) := by
  refine ⟨?_, ?_, ?_⟩
  · rw [loop_eq_loop_tracking dist t e hstate]
    unfold loop_tracking
    dsimp only
    split
    · next hc =>
      simp only [to_power_save]
      exact ⟨fun _ => hc, fun _ => trivial⟩
    · next hc =>
      constructor
      · intro hps
        exfalso
        rw [tracking_radio_step_state, tracking_probe_step_state,
          latch_movement_state, hstate] at hps
        exact state_t.noConfusion hps
      · intro hle
        exact absurd hle hc
  · obtain ⟨hbuf, hcnt⟩ := feed_window_init bs
    rw [hcnt, lastN_of_le _ _ (by rw [hlen]; decide), hcount]
  · obtain ⟨hbuf, hcnt⟩ := feed_window_init (bs.take i)
    rw [hcnt, lastN_of_le _ _
      (by rw [List.length_take, hlen]; unfold TRACKING_IDLE_BUFFER_SIZE; omega)]
    exact Iff.rfl

/-- Closed instance of the C7 theorem: the boot state with a usable probe
environment, and the interleaving of 3 `MOVING` followed by 9 `IDLE`. -/
theorem C7_idle_threshold_to_power_save_witness :
    ((loop dist0 init_state (c4_env 0 false)).state = state_t.POWER_SAVE ↔
      TRACKING_IDLE_PROBES ≤
        (tracking_radio_step
          (tracking_probe_step dist0 (latch_movement init_state (c4_env 0 false))
            0 (sample_ok 0)) 0 none).gps.n_idle) ∧
    (feed_window init_state.gps
      [false, false, false, true, true, true, true, true, true, true, true, true]).n_idle = 9 ∧
    (TRACKING_IDLE_PROBES ≤ (feed_window init_state.gps
      ([false, false, false, true, true, true, true, true, true, true, true, true].take 12)).n_idle ↔
      9 ≤ ([false, false, false, true, true, true, true, true, true, true, true, true].take 12).count true) :=
  C7_idle_threshold_to_power_save dist0 init_state (c4_env 0 false)
    [false, false, false, true, true, true, true, true, true, true, true, true]
    12 rfl (by decide) (by decide)

/-- A probe with a usable sample never returns `NO_FIX`. -/
theorem probe_gps_not_no_fix (d : dist_fn) (t : tracker_t) (n : ℕ)
    (p : position_t) (h : (p.has_gnss_fix && decide (0 < p.n_satellites)) = true) :
    (probe_gps d t n p).1 ≠ probe_result_t.NO_FIX := by
  unfold probe_gps
  dsimp only
  rw [if_pos h]
  split
  · split <;> simp
  · simp

/-- A probe with an unusable sample returns `NO_FIX`. -/
theorem probe_gps_no_fix_of (d : dist_fn) (t : tracker_t) (n : ℕ)
    (p : position_t)
    (h : (p.has_gnss_fix && decide (0 < p.n_satellites)) = false) :
    (probe_gps d t n p).1 = probe_result_t.NO_FIX := by
  unfold probe_gps
  dsimp only
  rw [if_neg (by rw [h]; exact Bool.false_ne_true)]

/-- The `NO_FIX` outcome characterised: exactly the samples with no GNSS fix
flag or zero satellites. -/
theorem probe_gps_no_fix_iff (d : dist_fn) (t : tracker_t) (n : ℕ)
    (p : position_t) :
    (probe_gps d t n p).1 = probe_result_t.NO_FIX ↔
      ¬(p.has_gnss_fix = true ∧ 0 < p.n_satellites) := by
  by_cases h : (p.has_gnss_fix && decide (0 < p.n_satellites)) = true
  · have h2 : p.has_gnss_fix = true ∧ 0 < p.n_satellites := by
      simpa [Bool.and_eq_true, decide_eq_true_eq] using h
    exact iff_of_false (probe_gps_not_no_fix d t n p h) (fun hn => hn h2)
  · have hf : (p.has_gnss_fix && decide (0 < p.n_satellites)) = false := by
      revert h; cases (p.has_gnss_fix && decide (0 < p.n_satellites)) <;> simp
    refine iff_of_true (probe_gps_no_fix_of d t n p hf) ?_
    intro hc
    rw [hc.1] at hf
    simp only [Bool.true_and, decide_eq_false_iff_not] at hf
    exact hf hc.2

/-- On `NO_FIX` the probe changes nothing except powering the GPS on (the
`get_position` call wakes the device). -/
theorem probe_gps_no_fix_frame (d : dist_fn) (t : tracker_t) (n : ℕ)
    (p : position_t) (h : (probe_gps d t n p).1 = probe_result_t.NO_FIX) :
    (probe_gps d t n p).2 = { t with gps := { t.gps with powered_on := true } } := by
  by_cases hs : (p.has_gnss_fix && decide (0 < p.n_satellites)) = true
  · exact absurd h (probe_gps_not_no_fix d t n p hs)
  · unfold probe_gps
    dsimp only
    rw [if_neg hs]

/-- C8: in `POWER_SAVE`, with the motion latch unset at the point the loop
reads it, a due and successful probe with outcome `IDLE` leaves the machine
in `POWER_SAVE` (so the next tick again runs the power-save loop), while any
successful outcome other than `IDLE` records movement and ends the tick in
`TRACKING` (so the very next tick runs the tracking loop); and every
successful power-save probe puts the GPS to sleep, reschedules the next probe
after the long power-save interval, and schedules an immediate
transmission. -/
theorem C8_power_save_probe_behavior (dist : dist_fn) (t : tracker_t)
    (e : env_t)
    (hstate : t.state = state_t.POWER_SAVE)
    (hlatch : (latch_movement t e).movement.detected = false)
    (hdue : t.gps.next_probe_time ≤ e.now)
    (hfix : e.gps_sample.has_gnss_fix = true)
    (hsat : 0 < e.gps_sample.n_satellites) :
    ((probe_gps dist (latch_movement t e) e.now e.gps_sample).1
        = probe_result_t.IDLE →
      (loop dist t e).state = state_t.POWER_SAVE) ∧
    ((probe_gps dist (latch_movement t e) e.now e.gps_sample).1
        ≠ probe_result_t.IDLE →
      (loop dist t e).state = state_t.TRACKING) ∧
    (power_save_probe_step dist (latch_movement t e) e.now
        e.gps_sample).1.gps.powered_on = false ∧
    (power_save_probe_step dist (latch_movement t e) e.now
        e.gps_sample).1.gps.next_probe_time
      = e.now + POWER_SAVE_GPS_PROBE_DELAY ∧
    (power_save_probe_step dist (latch_movement t e) e.now
        e.gps_sample).1.radio.next_msg_time = some e.now ∧
    (power_save_probe_step dist (latch_movement t e) e.now e.gps_sample).2
      = decide ((probe_gps dist (latch_movement t e) e.now e.gps_sample).1
          ≠ probe_result_t.IDLE) := by
  have hdue1 : (latch_movement t e).gps.next_probe_time ≤ e.now := by
    rw [latch_movement_gps]; exact hdue
  have hnf : (probe_gps dist (latch_movement t e) e.now e.gps_sample).1
      ≠ probe_result_t.NO_FIX :=
    probe_gps_not_no_fix _ _ _ _ (by simp [hfix, hsat])
  have hstep : power_save_probe_step dist (latch_movement t e) e.now e.gps_sample
      = ({ (probe_gps dist (latch_movement t e) e.now e.gps_sample).2 with
           gps := { (probe_gps dist (latch_movement t e) e.now e.gps_sample).2.gps with
             powered_on := false,
             next_probe_time := e.now + POWER_SAVE_GPS_PROBE_DELAY },
           radio := { (probe_gps dist (latch_movement t e) e.now e.gps_sample).2.radio with
             next_msg_time := some e.now } },
         decide ((probe_gps dist (latch_movement t e) e.now e.gps_sample).1
           ≠ probe_result_t.IDLE)) := by
    unfold power_save_probe_step
    dsimp only
    rw [if_pos hdue1, if_neg hnf]
  have hloop : loop dist t e
      = loop_power_save dist (latch_movement t e) e :=
    loop_eq_loop_power_save dist t e hstate
  refine ⟨?_, ?_, by rw [hstep], by rw [hstep], by rw [hstep], by rw [hstep]⟩
  · intro hidle
    rw [hloop]
    unfold loop_power_save
    dsimp only
    rw [hlatch, hstep, hidle]
    dsimp only
    rw [if_neg (by decide)]
    rw [power_save_radio_step_state]
    dsimp only
    rw [probe_gps_state, latch_movement_state]
    exact hstate
  · intro hmov
    rw [hloop]
    unfold loop_power_save
    dsimp only
    rw [hlatch, hstep]
    dsimp only
    rw [if_pos (by rw [Bool.false_or, decide_eq_true_eq]; exact hmov)]
    rfl

/-- Closed instance of the C8 theorem at the power-save state reached from
boot with no position, a due usable probe and no interrupt. -/
theorem C8_power_save_probe_behavior_witness :
    ((probe_gps dist0 (latch_movement (to_power_save init_state 0) (c4_env 5 false))
        5 (sample_ok 0)).1 = probe_result_t.IDLE →
      (loop dist0 (to_power_save init_state 0) (c4_env 5 false)).state
        = state_t.POWER_SAVE) ∧
    ((probe_gps dist0 (latch_movement (to_power_save init_state 0) (c4_env 5 false))
        5 (sample_ok 0)).1 ≠ probe_result_t.IDLE →
      (loop dist0 (to_power_save init_state 0) (c4_env 5 false)).state
        = state_t.TRACKING) ∧
    (power_save_probe_step dist0
        (latch_movement (to_power_save init_state 0) (c4_env 5 false))
        5 (sample_ok 0)).1.gps.powered_on = false ∧
    (power_save_probe_step dist0
        (latch_movement (to_power_save init_state 0) (c4_env 5 false))
        5 (sample_ok 0)).1.gps.next_probe_time = 5 + POWER_SAVE_GPS_PROBE_DELAY ∧
    (power_save_probe_step dist0
        (latch_movement (to_power_save init_state 0) (c4_env 5 false))
        5 (sample_ok 0)).1.radio.next_msg_time = some 5 ∧
    (power_save_probe_step dist0
        (latch_movement (to_power_save init_state 0) (c4_env 5 false))
        5 (sample_ok 0)).2
      = decide ((probe_gps dist0
          (latch_movement (to_power_save init_state 0) (c4_env 5 false))
          5 (sample_ok 0)).1 ≠ probe_result_t.IDLE) :=
  C8_power_save_probe_behavior dist0 (to_power_save init_state 0)
    (c4_env 5 false) rfl (by decide) (by decide) rfl (by decide)

/-- A probe never clears `has_position` once it is set. -/
theorem probe_gps_has_position_mono (d : dist_fn) (t : tracker_t) (n : ℕ)
    (p : position_t) (h : t.gps.has_position = true) :
    (probe_gps d t n p).2.gps.has_position = true := by
  unfold probe_gps
  dsimp only
  split
  · split <;> rfl
  · exact h

theorem push_idle_probe_has_position (g : gps_state_t) (b : Bool) :
    (push_idle_probe g b).has_position = g.has_position := by
  by_cases hf : g.idle_probes.length = TRACKING_IDLE_BUFFER_SIZE <;>
    cases b <;> simp [push_idle_probe, hf]

theorem send_location_msg_has_position (t : tracker_t) (n : ℕ)
    (r : Option ℕ) :
    ((send_location_msg t n r).1).gps.has_position = t.gps.has_position := by
  cases r <;> rfl

theorem tracking_probe_step_has_position (d : dist_fn) (t : tracker_t)
    (n : ℕ) (s : position_t) (h : t.gps.has_position = true) :
    (tracking_probe_step d t n s).gps.has_position = true := by
  unfold tracking_probe_step
  dsimp only
  split
  · split
    · exact probe_gps_has_position_mono d t n s h
    · split
      · rw [push_idle_probe_has_position]
        exact probe_gps_has_position_mono d t n s h
      · exact probe_gps_has_position_mono d t n s h
  · exact h

theorem tracking_radio_step_has_position (t : tracker_t) (n : ℕ)
    (r : Option ℕ) (h : t.gps.has_position = true) :
    (tracking_radio_step t n r).gps.has_position = true := by
  unfold tracking_radio_step
  dsimp only
  split
  · split
    · split <;>
        rw [show ((send_location_msg t n r).1).gps.has_position
          = t.gps.has_position from send_location_msg_has_position t n r] at * <;>
        exact h
    · exact h
  · exact h

theorem power_save_probe_step_has_position (d : dist_fn) (t : tracker_t)
    (n : ℕ) (s : position_t) (h : t.gps.has_position = true) :
    ((power_save_probe_step d t n s).1).gps.has_position = true := by
  unfold power_save_probe_step
  dsimp only
  split
  · split <;> exact probe_gps_has_position_mono d t n s h
  · exact h

theorem power_save_radio_step_has_position (t : tracker_t) (n : ℕ)
    (r : Option ℕ) (h : t.gps.has_position = true) :
    (power_save_radio_step t n r).gps.has_position = true := by
  unfold power_save_radio_step
  dsimp only
  split
  · split
    · split <;>
        rw [show ((send_location_msg t n r).1).gps.has_position
          = t.gps.has_position from send_location_msg_has_position t n r] at * <;>
        exact h
    · exact h
  · exact h

/-- One tick never clears `has_position` once it is set. -/
theorem loop_has_position (d : dist_fn) (t : tracker_t) (e : env_t)
    (h : t.gps.has_position = true) :
    (loop d t e).gps.has_position = true := by
  have hl : (latch_movement t e).gps.has_position = true := by
    rw [latch_movement_gps]; exact h
  unfold loop
  dsimp only
  split
  · unfold loop_tracking
    dsimp only
    have h2 := tracking_radio_step_has_position
      (tracking_probe_step d (latch_movement t e) e.now e.gps_sample)
      e.now e.radio_response
      (tracking_probe_step_has_position d (latch_movement t e) e.now
        e.gps_sample hl)
    split
    · exact h2
    · exact h2
  · unfold loop_power_save
    dsimp only
    have h2 := power_save_radio_step_has_position
      ((power_save_probe_step d (latch_movement t e) e.now e.gps_sample).1)
      e.now e.radio_response
      (power_save_probe_step_has_position d (latch_movement t e) e.now
        e.gps_sample hl)
    split
    · exact h2
    · exact h2

/-- C9: a usable first-ever probe (no previous position) always yields
`UNKNOWN` and leaves the trip accumulator untouched, whatever the sample's
coordinates; once any probe has succeeded, `has_position` holds and is never
cleared by later ticks, and every later probe returns something other than
`UNKNOWN`. -/
theorem C9_unknown_only_on_first_fix (dist : dist_fn) (t : tracker_t)
    (now : ℕ) (pos : position_t) (e : env_t) :
    (pos.has_gnss_fix = true → 0 < pos.n_satellites →
      t.gps.has_position = false →
      (probe_gps dist t now pos).1 = probe_result_t.UNKNOWN ∧
      (probe_gps dist t now pos).2.gps.distance = t.gps.distance ∧
      (probe_gps dist t now pos).2.gps.alt_gain = t.gps.alt_gain ∧
      (probe_gps dist t now pos).2.gps.max_speed = t.gps.max_speed) ∧
    (t.gps.has_position = true →
      (probe_gps dist t now pos).1 ≠ probe_result_t.UNKNOWN) ∧
    (t.gps.has_position = true →
      (loop dist t e).gps.has_position = true) := by
  refine ⟨?_, ?_, loop_has_position dist t e⟩
  · intro hfix hsat hnp
    have hs : (pos.has_gnss_fix && decide (0 < pos.n_satellites)) = true := by
      simp [hfix, hsat]
    unfold probe_gps
    dsimp only
    rw [if_pos hs, if_neg (by rw [hnp]; exact Bool.false_ne_true)]
    exact ⟨rfl, rfl, rfl, rfl⟩
  · intro hp
    unfold probe_gps
    dsimp only
    split
    · split <;> simp
    · simp

/-- Closed instance of the C9 theorem: the boot state for the first-fix part
and the state right after a first successful probe for the later-probe
parts. -/
theorem C9_unknown_only_on_first_fix_witness :
    ((probe_gps dist0 init_state 0 (sample_ok 0)).1 = probe_result_t.UNKNOWN ∧
     (probe_gps dist0 init_state 0 (sample_ok 0)).2.gps.distance
       = init_state.gps.distance ∧
     (probe_gps dist0 init_state 0 (sample_ok 0)).2.gps.alt_gain
       = init_state.gps.alt_gain ∧
     (probe_gps dist0 init_state 0 (sample_ok 0)).2.gps.max_speed
       = init_state.gps.max_speed) ∧
    (probe_gps dist0 (probe_gps dist0 init_state 0 (sample_ok 0)).2 20
      (sample_ok 0)).1 ≠ probe_result_t.UNKNOWN ∧
    (loop dist0 (probe_gps dist0 init_state 0 (sample_ok 0)).2
      (c4_env 20 false)).gps.has_position = true :=
  ⟨(C9_unknown_only_on_first_fix dist0 init_state 0 (sample_ok 0)
      (c4_env 20 false)).1 rfl (by decide) rfl,
   (C9_unknown_only_on_first_fix dist0
      (probe_gps dist0 init_state 0 (sample_ok 0)).2 20 (sample_ok 0)
      (c4_env 20 false)).2.1 (by decide),
   (C9_unknown_only_on_first_fix dist0
      (probe_gps dist0 init_state 0 (sample_ok 0)).2 20 (sample_ok 0)
      (c4_env 20 false)).2.2 (by decide)⟩

/-- C10: a probe yields `NO_FIX` exactly when the sample has no GNSS-fix
flag or zero satellites; and when a due probe yields `NO_FIX`, the probe
block of either state's loop changes nothing except the next-probe deadline
(set to the retry delay) and the GPS power flag (the `get_position` call
wakes the device): last position, `has_position`, its timestamp, smoothed
altitude, the accumulator, the idle window and its count, the transmission
schedule and last-message time, the movement latch and the
`TRACKING`/`POWER_SAVE` state are all left unchanged, as the record
equations exhibit. -/
theorem C10_no_fix_outcome_frame (dist : dist_fn) (t : tracker_t) (now : ℕ)
    (pos : position_t) :
    ((probe_gps dist t now pos).1 = probe_result_t.NO_FIX ↔
      ¬(pos.has_gnss_fix = true ∧ 0 < pos.n_satellites)) ∧
    (t.gps.next_probe_time ≤ now →
      (probe_gps dist t now pos).1 = probe_result_t.NO_FIX →
      tracking_probe_step dist t now pos
        = { t with gps := { t.gps with
            powered_on := true,
            next_probe_time := now + GPS_RETRY_DELAY } } ∧
      power_save_probe_step dist t now pos
        = ({ t with gps := { t.gps with
            powered_on := true,
            next_probe_time := now + GPS_RETRY_DELAY } }, false)) := by
  refine ⟨probe_gps_no_fix_iff dist t now pos, ?_⟩
  intro hdue hnofix
  constructor
  · unfold tracking_probe_step
    dsimp only
    rw [if_pos hdue, if_pos hnofix, probe_gps_no_fix_frame dist t now pos hnofix]
  · unfold power_save_probe_step
    dsimp only
    rw [if_pos hdue, if_pos hnofix, probe_gps_no_fix_frame dist t now pos hnofix]

/-- Closed instance of the C10 theorem at the boot state with a fixless
sample. -/
theorem C10_no_fix_outcome_frame_witness :
    ((probe_gps dist0 init_state 0 sample_no_fix).1 = probe_result_t.NO_FIX ↔
      ¬(sample_no_fix.has_gnss_fix = true ∧ 0 < sample_no_fix.n_satellites)) ∧
    (tracking_probe_step dist0 init_state 0 sample_no_fix
      = { init_state with gps := { init_state.gps with
          powered_on := true,
          next_probe_time := 0 + GPS_RETRY_DELAY } } ∧
     power_save_probe_step dist0 init_state 0 sample_no_fix
      = ({ init_state with gps := { init_state.gps with
          powered_on := true,
          next_probe_time := 0 + GPS_RETRY_DELAY } }, false)) :=
  ⟨(C10_no_fix_outcome_frame dist0 init_state 0 sample_no_fix).1,
   (C10_no_fix_outcome_frame dist0 init_state 0 sample_no_fix).2
     (by decide) (by decide)⟩

end BikeTracker
